import Mathlib

/-!
Shallow embedding of the GitHub Repository Monitor (github_monitor.py and
setup_config.py).  Pure computations (diffing, rendering, pagination control
flow) are translated to Lean functions; side-effecting code is modelled as
functions returning an explicit trace of filesystem/network effects.  The
network is an oracle: a queue of per-attempt outcomes for the paged listing
endpoint plus booleans for the validation and webhook calls.  Timestamps and
terminal colour codes are abstracted away; log lines keep their level tag and
message text.
-/

/-- The four persisted settings of the `Settings` block in config.ini. -/
structure Config where
  organization : String
  github_token : String
  slack_webhook_url : String
  enable_slack : Bool
deriving DecidableEq, Repr

/-- The monitor state after `__init__`: the loaded configuration plus the
current date string (used to derive the per-day file names). -/
structure Monitor where
  organization : String
  github_token : String
  slack_webhook_url : String
  enable_slack : Bool
  today : String
deriving DecidableEq, Repr

/-- Build the monitor state from a stored configuration and a date. -/
def monitorOf (c : Config) (today : String) : Monitor :=
  { organization := c.organization
    github_token := c.github_token
    slack_webhook_url := c.slack_webhook_url
    enable_slack := c.enable_slack
    today := today }

/-- Parsed command-line arguments of github_monitor.py
(`None` for absent string options; store_true flags default to false). -/
structure Args where
  organization : Option String
  github_token : Option String
  slack_webhook_url : Option String
  enable_slack : Bool
  show_config : Bool
  dry_run : Bool
deriving DecidableEq, Repr

/-- Response body of one page-listing call: either not a JSON array, or an
array of objects from which the `full_name` fields are extracted. -/
inductive Body where
  | notList : Body
  | arr : List String → Body
deriving DecidableEq, Repr

/-- Outcome of a single HTTP attempt against the listing endpoint:
a network/HTTP error, or a parsed body. -/
inductive Attempt where
  | err : Attempt
  | ok : Body → Attempt
deriving DecidableEq, Repr

/-- The Slack payload fields built by send_slack_notification. -/
structure SlackPayload where
  color : String
  title : String
  text : String
  addedTitle : String
  addedValue : String
  deletedTitle : String
  deletedValue : String
deriving DecidableEq, Repr

/-- Network oracle: results of the validation calls, the queue of outcomes
consumed one per listing attempt (an empty queue means further attempts
fail), and the webhook POST outcome. -/
structure Network where
  tokenValid : Bool
  orgValid : Bool
  pages : List Attempt
  slackOk : Bool
deriving DecidableEq, Repr

/-- Observable side effects of a run, in program order. -/
inductive Eff where
  | mkdirConfigDir : Eff
  | writeConfigFile : Config → Eff
  | appendLog : String → Eff
  | consolePrint : String → Eff
  | mkdirBackupDir : Eff
  | copyFile : String → String → Eff
  | removeFile : String → Eff
  | writeFile : String → List String → Eff
  | httpGetUser : Eff
  | httpGetOrg : String → Eff
  | httpListPage : String → Nat → Nat → Eff
  | httpPostSlack : SlackPayload → Eff
deriving DecidableEq, Repr

/-- Name of the current day's snapshot file (`repo-list-<today>`). -/
def repoListFile (m : Monitor) : String := "repo-list-" ++ m.today

/-- Name of the current day's added-repositories file. -/
def addedReposFile (m : Monitor) : String := "added-repos-" ++ m.today

/-- Name of the current day's deleted-repositories file. -/
def deletedReposFile (m : Monitor) : String := "deleted-repos-" ++ m.today

/-- Name of the current day's backup directory. -/
def backupDirName (m : Monitor) : String := "backups_" ++ m.today

/-- Effects of one `log` call: colourised console print plus a plain append
to github-monitor.log (timestamp abstracted, level tag kept). -/
def logEff (level message : String) : List Eff :=
  [Eff.consolePrint ("[" ++ level ++ "] " ++ message),
   Eff.appendLog ("[" ++ level ++ "] " ++ message)]

/-! ## Snapshot store: file content model

Files are modelled as character lists.  `save_list_to_file` writes one item
per line; loading reads lines back (universal newlines), strips whitespace
and keeps the non-empty ones, as in the run() list comprehension
`[line.strip() for line in f if line.strip()]`. -/

/-- Whitespace characters removed by Python str.strip(): exactly the
characters for which str.isspace() holds — the ASCII whitespace and
separator controls plus the Unicode space characters (NEL, NBSP, Ogham
space mark, the U+2000 range, line and paragraph separators, narrow
no-break space, medium mathematical space, ideographic space). -/
def isPyWhitespace (c : Char) : Bool :=
  c = ' ' || c = '\t' || c = '\n' || c = '\r' || c = '\x0b' || c = '\x0c' ||
  ('\x1c' ≤ c && c ≤ '\x1f') || c = '\x85' || c = '\xa0' || c = '\u1680' ||
  ('\u2000' ≤ c && c ≤ '\u200a') || c = '\u2028' || c = '\u2029' ||
  c = '\u202f' || c = '\u205f' || c = '\u3000'

/-- Python str.strip(): drop whitespace from both ends. -/
def stripChars (l : List Char) : List Char :=
  ((l.dropWhile isPyWhitespace).reverse.dropWhile isPyWhitespace).reverse

/-- Universal-newlines translation of text-mode reading: `\r\n` and lone
`\r` become `\n`. -/
def normalizeNewlines : List Char → List Char
  | [] => []
  | '\r' :: '\n' :: cs => '\n' :: normalizeNewlines cs
  | '\r' :: cs => '\n' :: normalizeNewlines cs
  | c :: cs => c :: normalizeNewlines cs

/-- Split a character list at newline characters. -/
def splitOnNl : List Char → List (List Char)
  | [] => [[]]
  | '\n' :: cs => [] :: splitOnNl cs
  | c :: cs =>
    match splitOnNl cs with
    | [] => [[c]]
    | l :: ls => (c :: l) :: ls

/-- Split file content into lines, treating `\n`, `\r\n` and lone `\r` as
terminators (universal-newlines text mode). -/
def splitLines (content : List Char) : List (List Char) :=
  splitOnNl (normalizeNewlines content)

/-- Content written by `_save_list_to_file`: each item followed by a
newline. -/
def save_list_to_file (items : List String) : List Char :=
  (items.map (fun s => s.data ++ ['\n'])).flatten

/-- Loading a snapshot file: non-empty whitespace-stripped lines, in file
order. -/
def load_snapshot (content : List Char) : List String :=
  (((splitLines content).map stripChars).filter (fun l => l ≠ [])).map
    (fun l => String.mk l)

/-! ## Differ -/

/-- Python list comprehension `[x for x in l if p x]` as explicit
recursion. -/
def comprehension (l : List String) (p : String → Bool) : List String :=
  match l with
  | [] => []
  | x :: xs => if p x then x :: comprehension xs p else comprehension xs p

/-- compare_repositories, pure part: (added, deleted). -/
def compare_repositories (current_list previous_list : List String) :
    List String × List String :=
  (comprehension current_list (fun repo => !previous_list.contains repo),
   comprehension previous_list (fun repo => !current_list.contains repo))

/-! ## Sorting (`repositories.sort()`): insertion sort on strings. -/

/-- Insert a string into an already sorted list. -/
def insertSorted (x : String) : List String → List String
  | [] => [x]
  | y :: ys => if x ≤ y then x :: y :: ys else y :: insertSorted x ys

/-- Ascending lexicographic sort of a string list. -/
def sortStrings (l : List String) : List String :=
  l.foldr insertSorted []

/-! ## Reporter -/

/-- The heavy bar printed around table titles (48 box-drawing characters). -/
def tableBar : String := String.mk (List.replicate 48 '━')

/-- Truncate an entry longer than 70 characters and add an ellipsis. -/
def truncateItem (item : String) : String :=
  if item.length > 70 then item.take 70 ++ "..." else item

/-- The data section of print_table: no-entries message, one bullet line per
item (below 20 items), or a count-only summary. -/
def table_body (items : List String) : List String :=
  if items.length = 0 then
    ["[yellow]No entries found[/yellow]"]
  else if items.length < 20 then
    items.map (fun item => "[blue]• " ++ truncateItem item ++ "[/blue]")
  else
    ["[yellow]Too many items to display (" ++ toString items.length ++
       " repositories)[/yellow]",
     "[yellow]Results saved to file[/yellow]"]

/-- All console lines printed by print_table, in order. -/
def print_table (items : List String) (title : String) : List String :=
  ["[bold]" ++ tableBar ++ "[/bold]",
   "[bold]" ++ title ++ "[/bold]",
   "[bold]" ++ tableBar ++ "[/bold]",
   "[cyan]Total count: " ++ toString items.length ++ "[/cyan]"]
  ++ table_body items
  ++ ["[bold]" ++ tableBar ++ "[/bold]"]

/-- Console effects of one print_table call. -/
def tableEffs (items : List String) (title : String) : List Eff :=
  (print_table items title).map Eff.consolePrint

/-- Console effects of print_header: a centered banner of width 80. -/
def print_header (title : String) : List Eff :=
  let padding := (80 - title.length - 2) / 2
  [Eff.consolePrint "",
   Eff.consolePrint (String.mk (List.replicate 80 '=')),
   Eff.consolePrint (String.mk (List.replicate padding ' ') ++ title ++
     String.mk (List.replicate padding ' ')),
   Eff.consolePrint (String.mk (List.replicate 80 '=')),
   Eff.consolePrint ""]

/-! ## Configuration display -/

/-- The fixed path string shown for the config file (home expansion
abstracted to a constant). -/
def configFilePath : String := "~/.config/github-monitor/config.ini"

/-- A run of n asterisks. -/
def stars (n : Nat) : String := String.mk (List.replicate n '*')

/-- The (setting, value) rows of show_config: the token and webhook values
are replaced by eight asterisks whenever they are non-empty. -/
def show_config_rows (m : Monitor) : List (String × String) :=
  [("Organization",
    if m.organization = "" then "[italic]Not set[/italic]" else m.organization),
   ("GitHub Token",
    if m.github_token = "" then "[italic]Not set[/italic]" else stars 8),
   ("Slack Webhook URL",
    if m.slack_webhook_url = "" then "[italic]Not set[/italic]" else stars 8),
   ("Slack Notifications", if m.enable_slack then "Enabled" else "Disabled"),
   ("Config File", configFilePath)]

/-- Console effects of show_config. -/
def showConfigEffs (m : Monitor) : List Eff :=
  Eff.consolePrint "[bold]Current Configuration:[/bold]" ::
    (show_config_rows m).map (fun row => Eff.consolePrint (row.1 ++ ": " ++ row.2))

/-- Python s[-n:]: the last n characters (whole string when shorter). -/
def pyTakeLast (n : Nat) (s : String) : String :=
  String.mk ((s.data.reverse.take n).reverse)

/-- The Configuration Summary lines printed at the end of
setup_config.setup_configuration: the token shows eight asterisks followed by
its last four characters (when longer than four), the webhook URL twenty
asterisks followed by its last eight characters (when longer than eight). -/
def setup_summary (c : Config) : List String :=
  ["Organization: " ++ c.organization,
   "GitHub token: " ++ stars 8 ++
     (if c.github_token.length > 4 then pyTakeLast 4 c.github_token else "Not set"),
   "Slack webhook: " ++ stars 20 ++
     (if c.slack_webhook_url.length > 8 then pyTakeLast 8 c.slack_webhook_url
      else "Not set"),
   "Slack notifications: " ++ (if c.enable_slack then "Enabled" else "Disabled")]

/-! ## Validation calls -/

/-- validate_token: warn and fail on an empty token, otherwise GET /user and
succeed exactly on a 200 response. -/
def validate_token (m : Monitor) (net : Network) : Bool × List Eff :=
  if m.github_token = "" then
    (false, logEff "WARNING" "No GitHub token provided")
  else if net.tokenValid then
    (true, Eff.httpGetUser :: logEff "INFO" "GitHub token validated successfully")
  else
    (false, Eff.httpGetUser :: logEff "ERROR" "GitHub token validation failed")

/-- validate_organization: fail on an empty name, otherwise GET /orgs/name
and succeed exactly on a 200 response. -/
def validate_organization (m : Monitor) (net : Network) : Bool × List Eff :=
  if m.organization = "" then
    (false, logEff "ERROR" "No organization name provided")
  else if net.orgValid then
    (true, Eff.httpGetOrg m.organization ::
      logEff "INFO" ("Organization " ++ m.organization ++ " validated successfully"))
  else
    (false, Eff.httpGetOrg m.organization ::
      logEff "ERROR" "Organization validation failed")

/-! ## Backups -/

/-- Backup one file when it exists: copy into the backup directory under an
old_ name, then remove the original. -/
def backupOne (m : Monitor) (existing : List String) (file : String) : List Eff :=
  if existing.contains file then
    logEff "INFO" ("Backing up " ++ file ++ " to " ++ backupDirName m ++ "/old_" ++ file)
    ++ [Eff.copyFile file (backupDirName m ++ "/old_" ++ file), Eff.removeFile file]
  else []

/-- backup_files: create the dated backup directory and back up the three
per-day files that already exist. -/
def backup_files (m : Monitor) (existing : List String) : List Eff :=
  logEff "INFO" "Backing up existing files" ++ [Eff.mkdirBackupDir]
  ++ backupOne m existing (repoListFile m)
  ++ backupOne m existing (addedReposFile m)
  ++ backupOne m existing (deletedReposFile m)

/-! ## Repository Fetcher

The paged listing loop of fetch_repositories.  Each HTTP attempt consumes
one element of the attempt queue; a page is attempted up to three times
(`for attempt in range(3)`), the third failure raises and the surrounding
`except` block logs the error and leaves the while-loop with whatever was
accumulated so far.  An exhausted queue makes every further attempt fail. -/

/-- The warning logged between retry attempts. -/
def retryWarnEffs : List Eff := logEff "WARNING" "API call failed. Retrying..."

/-- The error logged by the outer except block when the third attempt of a
page has failed. -/
def fetchErrEffs : List Eff := logEff "ERROR" "Error fetching repositories"

/-- Effects of n consecutive failing attempts on one page when the queue has
run dry (a retry warning after every failure but the last, which raises). -/
def failBurst (org : String) (page : Nat) : Nat → List Eff
  | 0 => []
  | Nat.succ r =>
    Eff.httpListPage org 100 page ::
      (if r = 0 then [] else retryWarnEffs ++ failBurst org page r)

/-- The INFO line logged after a successfully retrieved page. -/
def pageLogEffs (count page total : Nat) : List Eff :=
  logEff "INFO" ("Retrieved " ++ toString count ++ " repositories on page " ++
    toString page ++ " (total: " ++ toString total ++ ")")

/-- The while-loop of fetch_repositories over the attempt queue.
`fails` counts the failed attempts already made on the current page.
Returns (accumulated names, error-flag of the outer except, unconsumed
queue, effects). -/
def fetchPagesGo (org : String) :
    List Attempt → Nat → Nat → List String →
      List String × Bool × List Attempt × List Eff
  | [], page, fails, acc =>
    (acc, true, [], failBurst org page (3 - fails) ++ fetchErrEffs)
  | Attempt.err :: rest, page, fails, acc =>
    if 2 ≤ fails then
      (acc, true, rest, [Eff.httpListPage org 100 page] ++ fetchErrEffs)
    else
      let r := fetchPagesGo org rest page (fails + 1) acc
      (r.1, r.2.1, r.2.2.1,
        Eff.httpListPage org 100 page :: retryWarnEffs ++ r.2.2.2)
  | Attempt.ok body :: rest, page, _fails, acc =>
    match body with
    | Body.notList => (acc, false, rest, [Eff.httpListPage org 100 page])
    | Body.arr names =>
      if names.length = 0 then
        (acc, false, rest, [Eff.httpListPage org 100 page])
      else if names.length < 100 then
        (acc ++ names, false, rest,
          Eff.httpListPage org 100 page ::
            pageLogEffs names.length page (acc.length + names.length))
      else
        let r := fetchPagesGo org rest (page + 1) 0 (acc ++ names)
        (r.1, r.2.1, r.2.2.1,
          Eff.httpListPage org 100 page ::
            pageLogEffs names.length page (acc.length + names.length) ++ r.2.2.2)

/-- fetch_repositories: empty organization short-circuits to an empty list;
otherwise run the paged loop, sort the accumulated names and write them to
the current day's snapshot file.  The write happens whether or not the loop
ended in the error branch. -/
def fetch_repositories (m : Monitor) (q : List Attempt) : List String × List Eff :=
  let pre := logEff "INFO" ("Fetching repositories for " ++ m.organization)
  if m.organization = "" then
    ([], pre ++ logEff "ERROR" "No organization name provided")
  else
    let warnTok :=
      if m.github_token = "" then
        logEff "WARNING" "GitHub token not provided. API rate limits may apply."
      else []
    let r := fetchPagesGo m.organization q 1 0 []
    let sorted := sortStrings r.1
    (sorted,
      pre ++ warnTok ++ r.2.2.2
        ++ [Eff.writeFile (repoListFile m) sorted]
        ++ logEff "INFO" ("Successfully fetched " ++ toString r.1.length ++
             " repositories"))

/-! ## Diff persistence and Slack notification -/

/-- compare_repositories with its effects: the added and deleted lists are
also written to their per-day files. -/
def compare_repositories_eff (m : Monitor) (current previous : List String) :
    (List String × List String) × List Eff :=
  let d := compare_repositories current previous
  (d,
   logEff "INFO" "Comparing current list with previous list"
   ++ [Eff.writeFile (addedReposFile m) d.1,
       Eff.writeFile (deletedReposFile m) d.2]
   ++ logEff "INFO" ("Found " ++ toString d.1.length ++
        " new repositories and " ++ toString d.2.length ++
        " deleted repositories"))

/-- Bullet-join a repository list for the Slack fields, or the word None. -/
def bulletJoin (repos : List String) : String :=
  if repos = [] then "None"
  else String.intercalate "\n" (repos.map (fun repo => "• " ++ repo))

/-- Attachment colour: orange when anything changed, green otherwise. -/
def slackColor (addedCount deletedCount : Nat) : String :=
  if 0 < addedCount ∨ 0 < deletedCount then "#ff9800" else "#36a64f"

/-- The payload posted to the webhook. -/
def buildPayload (m : Monitor) (added deleted : List String) : SlackPayload :=
  { color := slackColor added.length deleted.length
    title := "GitHub Repository Change Report for " ++ m.organization
    text := "Changes detected on " ++ m.today
    addedTitle := "Added Repositories (" ++ toString added.length ++ ")"
    addedValue := bulletJoin added
    deletedTitle := "Deleted Repositories (" ++ toString deleted.length ++ ")"
    deletedValue := bulletJoin deleted }

/-- send_slack_notification: skipped (returning True) when disabled or
without a webhook URL; otherwise POST the payload, log the outcome and
return whether it succeeded.  A failure is only logged. -/
def send_slack_notification (m : Monitor) (net : Network)
    (added deleted : List String) : Bool × List Eff :=
  if !m.enable_slack || m.slack_webhook_url = "" then (true, [])
  else
    let pre := logEff "INFO" "Sending notification to Slack"
      ++ [Eff.httpPostSlack (buildPayload m added deleted)]
    if net.slackOk then
      (true, pre ++ logEff "INFO" "Slack notification sent successfully")
    else
      (false, pre ++ logEff "ERROR" "Failed to send Slack notification")

/-! ## run() -/

/-- The top-level run(): validations, backup, fetch, then (when a previous
snapshot exists) diff, report and optional notification.  `previous` is the
result of find_previous_list together with the raw content of that file
(the modification-time directory scan is an oracle input).  Returns the
success flag and the effect trace. -/
def GitHubMonitor.run (m : Monitor) (net : Network) (existing : List String)
    (previous : Option (String × List Char)) : Bool × List Eff :=
  if m.organization = "" then
    (false, logEff "ERROR" "Organization name is not set. Use --org to set it.")
  else
    let tok := if m.github_token = "" then (true, ([] : List Eff))
               else validate_token m net
    if !tok.1 then
      (false, tok.2 ++
        logEff "ERROR" "Invalid GitHub token. Please check your token and try again.")
    else
      let org := validate_organization m net
      if !org.1 then
        (false, tok.2 ++ org.2 ++
          logEff "ERROR" ("Invalid organization: " ++ m.organization ++
            ". Please check the name and try again."))
      else
        let effsA := tok.2 ++ org.2
          ++ print_header "GitHub Repository Monitor"
          ++ logEff "INFO" ("Starting repository monitoring for " ++ m.organization)
          ++ backup_files m existing
        let fetched := fetch_repositories m net.pages
        if fetched.1 = [] then
          (false, effsA ++ fetched.2 ++ logEff "ERROR" "Failed to fetch repositories")
        else
          match previous with
          | some prev =>
            let previousRepos := load_snapshot prev.2
            let cmp := compare_repositories_eff m fetched.1 previousRepos
            let slackEffs :=
              if m.enable_slack then
                (send_slack_notification m net cmp.1.1 cmp.1.2).2
              else []
            (true,
             effsA ++ fetched.2
               ++ logEff "INFO" "Using previous list for comparison"
               ++ cmp.2
               ++ print_header "Repository Changes Report"
               ++ tableEffs cmp.1.1 "Added Repositories"
               ++ tableEffs cmp.1.2 "Deleted Repositories"
               ++ slackEffs
               ++ print_header "Summary"
               ++ tableEffs previousRepos ("Previous Repository List (" ++
                    prev.1 ++ ")")
               ++ tableEffs fetched.1 ("Current Repository List (" ++ m.today ++ ")")
               ++ logEff "INFO" "Script completed successfully")
          | none =>
            (true,
             effsA ++ fetched.2
               ++ logEff "INFO"
                    "No previous repository list found. This is the first run."
               ++ print_header "Initial Repository Report"
               ++ tableEffs fetched.1 "Current Repositories"
               ++ print_header "Summary"
               ++ tableEffs fetched.1 ("Current Repository List (" ++ m.today ++ ")")
               ++ logEff "INFO" "Script completed successfully")

/-! ## main() -/

/-- Python truthiness of an optional string argument. -/
def optTruthy : Option String → Bool
  | none => false
  | some s => s ≠ ""

/-- The configuration written on first start when no config file exists. -/
def defaultConfig : Config :=
  { organization := "", github_token := "", slack_webhook_url := ""
    enable_slack := false }

/-- Effects of GitHubMonitor.__init__: create the config directory, write a
fresh default config file when none exists, then the initial log line. -/
def initEffects (stored : Option Config) : List Eff :=
  Eff.mkdirConfigDir ::
    (match stored with
     | some _ => []
     | none => [Eff.writeConfigFile defaultConfig])
  ++ logEff "INFO" "GitHub Repository Monitor initialized"

/-- main() enters the update_config branch when any of the four option
arguments is truthy. -/
def updateRequested (args : Args) : Bool :=
  optTruthy args.organization || optTruthy args.github_token ||
    optTruthy args.slack_webhook_url || args.enable_slack

/-- update_config as called from main(): each provided (non-None) string
option replaces the stored value; enable_slack is always replaced by the
flag value (the store_true default is False, never None). -/
def applyArgs (c : Config) (args : Args) : Config :=
  { organization := args.organization.getD c.organization
    github_token := args.github_token.getD c.github_token
    slack_webhook_url := args.slack_webhook_url.getD c.slack_webhook_url
    enable_slack := args.enable_slack }

/-- main(): build the monitor from the stored configuration (None when no
config file exists yet), apply argument updates, then dispatch between
show-config, the missing-organization error path, the dry run and the real
run.  Returns the process exit code and the effect trace. -/
def monitorMain (args : Args) (stored : Option Config) (today : String)
    (net : Network) (existing : List String)
    (previous : Option (String × List Char)) : Nat × List Eff :=
  let c0 := stored.getD defaultConfig
  let upd :=
    if updateRequested args then
      let c1 := applyArgs c0 args
      (c1, Eff.writeConfigFile c1 ::
        logEff "INFO" "Configuration updated successfully")
    else (c0, [])
  let m := monitorOf upd.1 today
  let pre := initEffects stored ++ upd.2
  if args.show_config then
    (0, pre ++ showConfigEffs m)
  else if m.organization = "" then
    (1, pre ++
      [Eff.consolePrint
        "Error: Organization name is required. Use --org to set it or check the configuration."]
      ++ showConfigEffs m)
  else if args.dry_run then
    (0, pre ++ [Eff.consolePrint "Dry run mode: No changes will be made."]
      ++ showConfigEffs m)
  else
    let r := GitHubMonitor.run m net existing previous
    (if r.1 then 0 else 1, pre ++ r.2)

/-! ## Effect classifiers used by the claims -/

/-- Does an effect create or modify a file on disk (snapshot, diff, backup,
log or configuration file)? -/
def isFileWrite : Eff → Bool
  | Eff.writeConfigFile _ => true
  | Eff.appendLog _ => true
  | Eff.copyFile _ _ => true
  | Eff.removeFile _ => true
  | Eff.writeFile _ _ => true
  | _ => false

/-- Is an effect an outbound HTTP request? -/
def isHttp : Eff → Bool
  | Eff.httpGetUser => true
  | Eff.httpGetOrg _ => true
  | Eff.httpListPage _ _ _ => true
  | Eff.httpPostSlack _ => true
  | _ => false

/-- Is an effect a request against the repository listing endpoint? -/
def isListFetch : Eff → Bool
  | Eff.httpListPage _ _ _ => true
  | _ => false

/-- Is an effect the webhook POST? -/
def isSlackPost : Eff → Bool
  | Eff.httpPostSlack _ => true
  | _ => false

/-- Is an effect a write of the added- or deleted-repositories file? -/
def isDiffWrite (m : Monitor) : Eff → Bool
  | Eff.writeFile n _ => n = addedReposFile m || n = deletedReposFile m
  | _ => false

/-- n distinct repository names derived from a stem. -/
def mkNames (stem : String) (n : Nat) : List String :=
  (List.range n).map (fun i => stem ++ toString i)

/-! ## Lemmas about the differ -/

/-- The embedded list comprehension is List.filter. -/
theorem comprehension_eq_filter (l : List String) (p : String → Bool) :
    comprehension l p = l.filter p := by
  induction l with
  | nil => rfl
  | cons x xs ih => simp [comprehension, List.filter_cons, ih]

/-- Membership in the added component of the diff. -/
theorem mem_compare_fst (current previous : List String) (repo : String) :
    repo ∈ (compare_repositories current previous).1 ↔
      repo ∈ current ∧ repo ∉ previous := by
  simp [compare_repositories, comprehension_eq_filter, List.mem_filter]

/-- Membership in the deleted component of the diff. -/
theorem mem_compare_snd (current previous : List String) (repo : String) :
    repo ∈ (compare_repositories current previous).2 ↔
      repo ∈ previous ∧ repo ∉ current := by
  simp [compare_repositories, comprehension_eq_filter, List.mem_filter]

/-- C3: For every pair of lists (current, previous), the diff returns
added = exactly the identifiers of current that are not in previous (by
exact string equality), in the order they occur in current (an order-
preserving sublist given by filtering current), and deleted = exactly the
identifiers of previous that are not in current, in the order they occur in
previous. -/
theorem claim_C3_diff_exact (current previous : List String) :
    (compare_repositories current previous).1 =
        current.filter (fun repo => !previous.contains repo) ∧
    (compare_repositories current previous).2 =
        previous.filter (fun repo => !current.contains repo) ∧
    (∀ repo, repo ∈ (compare_repositories current previous).1 ↔
        repo ∈ current ∧ repo ∉ previous) ∧
    (∀ repo, repo ∈ (compare_repositories current previous).2 ↔
        repo ∈ previous ∧ repo ∉ current) ∧
    (compare_repositories current previous).1.Sublist current ∧
    (compare_repositories current previous).2.Sublist previous := by
  refine ⟨?_, ?_, mem_compare_fst current previous, mem_compare_snd current previous, ?_, ?_⟩
  · simp [compare_repositories, comprehension_eq_filter]
  · simp [compare_repositories, comprehension_eq_filter]
  · simp only [compare_repositories, comprehension_eq_filter]
    exact List.filter_sublist current
  · simp only [compare_repositories, comprehension_eq_filter]
    exact List.filter_sublist previous

/-- C4: For all pairs of snapshots A and B, added(A,B) and deleted(A,B) are
disjoint, together they partition the symmetric difference of A and B, and
added(A,B) equals deleted(B,A); diffing A against itself yields empty added
and empty deleted. -/
theorem claim_C4_diff_algebra (A B : List String) :
    (∀ x, ¬(x ∈ (compare_repositories A B).1 ∧ x ∈ (compare_repositories A B).2)) ∧
    (∀ x, (x ∈ (compare_repositories A B).1 ∨ x ∈ (compare_repositories A B).2) ↔
        ((x ∈ A ∧ x ∉ B) ∨ (x ∈ B ∧ x ∉ A))) ∧
    (compare_repositories A B).1 = (compare_repositories B A).2 ∧
    compare_repositories A A = ([], []) := by
  refine ⟨?_, ?_, rfl, ?_⟩
  · intro x ⟨hx1, hx2⟩
    rw [mem_compare_fst] at hx1
    rw [mem_compare_snd] at hx2
    exact hx1.2 hx2.1
  · intro x
    rw [mem_compare_fst, mem_compare_snd]
  · have h1 : (compare_repositories A A).1 = [] := by
      simp [compare_repositories, comprehension_eq_filter, List.filter_eq_nil_iff]
    have h2 : (compare_repositories A A).2 = [] := by
      simp [compare_repositories, comprehension_eq_filter, List.filter_eq_nil_iff]
    calc compare_repositories A A
        = ((compare_repositories A A).1, (compare_repositories A A).2) := rfl
      _ = ([], []) := by rw [h1, h2]

/-! ## Reporter claims -/

/-- C7: The list-rendering rule holds uniformly for every reported list: an
empty list prints the no-entries message; a list of 1 to 19 entries prints
every entry on its own line, any entry longer than 70 characters truncated
and suffixed with an ellipsis; a list of 20 or more entries prints only the
count (so a 19-entry list is fully printed and a 20-entry list is
summarized). -/
theorem claim_C7_table_rendering (items : List String) (title : String) :
    (print_table items title =
      ["[bold]" ++ tableBar ++ "[/bold]",
       "[bold]" ++ title ++ "[/bold]",
       "[bold]" ++ tableBar ++ "[/bold]",
       "[cyan]Total count: " ++ toString items.length ++ "[/cyan]"]
      ++ table_body items ++ ["[bold]" ++ tableBar ++ "[/bold]"]) ∧
    (items.length = 0 →
      table_body items = ["[yellow]No entries found[/yellow]"]) ∧
    (1 ≤ items.length → items.length ≤ 19 →
      table_body items =
        items.map (fun item => "[blue]• " ++ truncateItem item ++ "[/blue]")) ∧
    (20 ≤ items.length →
      table_body items =
        ["[yellow]Too many items to display (" ++ toString items.length ++
           " repositories)[/yellow]",
         "[yellow]Results saved to file[/yellow]"]) ∧
    (∀ item : String, 70 < item.length →
      truncateItem item = item.take 70 ++ "...") ∧
    (∀ item : String, item.length ≤ 70 → truncateItem item = item) := by
  refine ⟨rfl, ?_, ?_, ?_, ?_, ?_⟩
  · intro h; simp [table_body, h]
  · intro h1 h2
    have h0 : items.length ≠ 0 := by omega
    have h20 : items.length < 20 := by omega
    simp [table_body, h0, h20]
  · intro h
    have h0 : items.length ≠ 0 := by omega
    have h20 : ¬ items.length < 20 := by omega
    simp [table_body, h0, h20]
  · intro item h; simp [truncateItem, h]
  · intro item h
    have h70 : ¬ item.length > 70 := by omega
    simp [truncateItem, h70]

/-- Witness for C7 at the boundary: a 19-entry list is fully printed and a
20-entry list is summarized with a count only. -/
theorem claim_C7_table_rendering_witness :
    table_body (mkNames "acme/repo" 19) =
      (mkNames "acme/repo" 19).map
        (fun item => "[blue]• " ++ truncateItem item ++ "[/blue]") ∧
    table_body (mkNames "acme/repo" 20) =
      ["[yellow]Too many items to display (" ++
         toString (mkNames "acme/repo" 20).length ++ " repositories)[/yellow]",
       "[yellow]Results saved to file[/yellow]"] :=
  ⟨(claim_C7_table_rendering (mkNames "acme/repo" 19) "Added Repositories").2.2.1
      (by simp [mkNames]) (by simp [mkNames]),
   (claim_C7_table_rendering (mkNames "acme/repo" 20) "Added Repositories").2.2.2.1
      (by simp [mkNames])⟩

/-! ## Configuration-display claims -/

/-- C9 counterexample: two stored configurations that differ only in the
(non-empty) value of the credential produce different output in the
setup_config Configuration Summary, which reveals the last four characters
of the credential.  This refutes the claim that the configuration display
produces identical output for such pairs and never contains any part of the
secrets. -/
theorem claim_C9_counterexample :
    (Config.mk "acme" "tokenAAAA" "https://hooks.example/x1" true).github_token
        ≠ "" ∧
    (Config.mk "acme" "tokenBBBB" "https://hooks.example/x1" true).github_token
        ≠ "" ∧
    setup_summary (Config.mk "acme" "tokenAAAA" "https://hooks.example/x1" true)
      ≠ setup_summary
          (Config.mk "acme" "tokenBBBB" "https://hooks.example/x1" true) := by
  refine ⟨by decide, by decide, ?_⟩
  decide

/-- C9 amended: the monitor's show_config display is fully masked — for any
two configurations agreeing on organization and notification flag whose
credential and webhook URL are non-empty, its output is identical (so it is
independent of, and reveals nothing about, the secret values); the setup
utility's Configuration Summary masks all but the last four characters of
the credential and the last eight of the webhook URL, so its output is
identical whenever those suffixes also agree. -/
theorem claim_C9_amended (c1 c2 : Config) (t1 t2 : String)
    (horg : c1.organization = c2.organization)
    (hen : c1.enable_slack = c2.enable_slack)
    (ht1 : c1.github_token ≠ "") (ht2 : c2.github_token ≠ "")
    (hu1 : c1.slack_webhook_url ≠ "") (hu2 : c2.slack_webhook_url ≠ "") :
    show_config_rows (monitorOf c1 t1) = show_config_rows (monitorOf c2 t2) ∧
    (4 < c1.github_token.length → 4 < c2.github_token.length →
     pyTakeLast 4 c1.github_token = pyTakeLast 4 c2.github_token →
     8 < c1.slack_webhook_url.length → 8 < c2.slack_webhook_url.length →
     pyTakeLast 8 c1.slack_webhook_url = pyTakeLast 8 c2.slack_webhook_url →
     setup_summary c1 = setup_summary c2) := by
  constructor
  · simp [show_config_rows, monitorOf, horg, hen, ht1, ht2, hu1, hu2]
  · intro h4a h4b hts h8a h8b hus
    simp [setup_summary, horg, hen, h4a, h4b, hts, h8a, h8b, hus]

/-- Witness for C9 amended: two configurations differing in the credential
and webhook prefixes (same suffixes) get identical displays. -/
theorem claim_C9_amended_witness :
    show_config_rows (monitorOf (Config.mk "acme" "Xtoken9999" "Xhook1234abcd" true) "d1") =
      show_config_rows (monitorOf (Config.mk "acme" "Ytoken9999" "Yhook1234abcd" true) "d2") ∧
    setup_summary (Config.mk "acme" "Xtoken9999" "Xhook1234abcd" true) =
      setup_summary (Config.mk "acme" "Ytoken9999" "Yhook1234abcd" true) := by
  have h := claim_C9_amended
    (Config.mk "acme" "Xtoken9999" "Xhook1234abcd" true)
    (Config.mk "acme" "Ytoken9999" "Yhook1234abcd" true)
    "d1" "d2" (by decide) (by decide) (by decide) (by decide) (by decide) (by decide)
  exact ⟨h.1, h.2 (by decide) (by decide) (by decide) (by decide) (by decide) (by decide)⟩

/-! ## Snapshot round-trip claims -/

/-- normalizeNewlines leaves a non-carriage-return head in place. -/
theorem normalizeNewlines_cons (c : Char) (cs : List Char) (h : c ≠ '\r') :
    normalizeNewlines (c :: cs) = c :: normalizeNewlines cs := by
  simp [normalizeNewlines, h]

/-- splitOnNl starts a new line at a newline character. -/
theorem splitOnNl_nl (cs : List Char) :
    splitOnNl ('\n' :: cs) = [] :: splitOnNl cs := by
  simp [splitOnNl]

/-- splitOnNl extends the first line with an ordinary character. -/
theorem splitOnNl_cons_ne (c : Char) (cs l : List Char) (ls : List (List Char))
    (h1 : c ≠ '\n') (h : splitOnNl cs = l :: ls) :
    splitOnNl (c :: cs) = (c :: l) :: ls := by
  simp [splitOnNl, h1, h]

/-- A newline-free line followed by a newline is split off whole. -/
theorem splitLines_append (x rest : List Char)
    (hx : ∀ c ∈ x, c ≠ '\n' ∧ c ≠ '\r') :
    splitLines (x ++ '\n' :: rest) = x :: splitLines rest := by
  induction x with
  | nil =>
    show splitOnNl (normalizeNewlines ('\n' :: rest)) = [] :: splitLines rest
    rw [normalizeNewlines_cons '\n' rest (by decide), splitOnNl_nl]
    rfl
  | cons c x ih =>
    have hc := hx c (by simp)
    have hrec : splitOnNl (normalizeNewlines (x ++ '\n' :: rest)) =
        x :: splitLines rest := ih (fun d hd => hx d (by simp [hd]))
    show splitOnNl (normalizeNewlines (c :: (x ++ '\n' :: rest))) =
        (c :: x) :: splitLines rest
    rw [normalizeNewlines_cons c _ hc.2]
    exact splitOnNl_cons_ne c _ x (splitLines rest) hc.1 hrec

/-- C5 (amended): for every list of identifiers in which each item is
non-empty, free of newline and carriage-return characters, and unchanged by
whitespace-stripping, saving the list to a snapshot file and loading it back
yields the same ordered list.  (The unrestricted claim fails: see the
counterexample with a leading-whitespace item.) -/
theorem claim_C5_roundtrip (l : List String)
    (h : ∀ s ∈ l, s ≠ "" ∧ stripChars s.data = s.data ∧
        ∀ c ∈ s.data, c ≠ '\n' ∧ c ≠ '\r') :
    load_snapshot (save_list_to_file l) = l := by
  induction l with
  | nil => rfl
  | cons s ls ih =>
    obtain ⟨hne, hstrip, hchars⟩ := h s (by simp)
    have hd : s.data ≠ [] := by
      intro hdata
      apply hne
      cases s
      simp_all
    have hmk : String.mk s.data = s := by cases s; rfl
    have hsave : save_list_to_file (s :: ls) =
        s.data ++ '\n' :: save_list_to_file ls := by
      simp [save_list_to_file]
    have ihtail : load_snapshot (save_list_to_file ls) = ls :=
      ih (fun t ht => h t (by simp [ht]))
    rw [hsave]
    simp only [load_snapshot] at ihtail ⊢
    rw [splitLines_append s.data (save_list_to_file ls) hchars]
    simp only [List.map_cons, hstrip, List.filter_cons]
    rw [if_pos (by simp [hd]), List.map_cons, hmk]
    exact congrArg (fun t => s :: t) ihtail

/-- Witness for C5: a well-formed two-element list survives the
round-trip. -/
theorem claim_C5_roundtrip_witness :
    load_snapshot (save_list_to_file ["acme/a", "acme/b"]) =
      ["acme/a", "acme/b"] :=
  claim_C5_roundtrip ["acme/a", "acme/b"] (by decide)

/-- C5 counterexample: an identifier with leading whitespace does not
survive the save/load round-trip, because loading strips each line; the
claim quantified over every list of identifiers is therefore false. -/
theorem claim_C5_counterexample :
    load_snapshot (save_list_to_file [" acme/a"]) ≠ [" acme/a"] ∧
    load_snapshot (save_list_to_file [" acme/a"]) = ["acme/a"] := by
  decide

/-! ## Fetcher lemmas -/

/-- mkNames produces n names. -/
theorem mkNames_length (stem : String) (n : Nat) : (mkNames stem n).length = n := by
  simp [mkNames]

/-- Inserting into a sorted list grows it by one. -/
theorem insertSorted_length (x : String) (l : List String) :
    (insertSorted x l).length = l.length + 1 := by
  induction l with
  | nil => rfl
  | cons y ys ih => simp [insertSorted]; split <;> simp [ih]

/-- Sorting preserves length. -/
theorem sortStrings_length (l : List String) :
    (sortStrings l).length = l.length := by
  induction l with
  | nil => rfl
  | cons x xs ih => simp [sortStrings, insertSorted_length] at ih ⊢; omega

/-- Sorting returns the empty list exactly on the empty list. -/
theorem sortStrings_eq_nil_iff (l : List String) :
    sortStrings l = [] ↔ l = [] := by
  constructor
  · intro h
    have := sortStrings_length l
    rw [h] at this
    exact List.length_eq_zero.mp this.symm
  · intro h; rw [h]; rfl

/-- A full page (exactly 100 entries) is accumulated and the loop continues
with the next page. -/
theorem fetchGo_full (org : String) (rest : List Attempt) (page fails : Nat)
    (acc names : List String) (h : names.length = 100) :
    fetchPagesGo org (Attempt.ok (Body.arr names) :: rest) page fails acc =
      (let r := fetchPagesGo org rest (page + 1) 0 (acc ++ names)
       (r.1, r.2.1, r.2.2.1,
         Eff.httpListPage org 100 page ::
           pageLogEffs names.length page (acc.length + names.length) ++ r.2.2.2)) := by
  simp [fetchPagesGo, h]

/-- A short page (fewer than 100 entries, at least one) is accumulated and
the loop stops without touching the rest of the queue. -/
theorem fetchGo_small (org : String) (rest : List Attempt) (page fails : Nat)
    (acc names : List String) (h0 : names ≠ []) (h100 : names.length < 100) :
    fetchPagesGo org (Attempt.ok (Body.arr names) :: rest) page fails acc =
      (acc ++ names, false, rest,
        Eff.httpListPage org 100 page ::
          pageLogEffs names.length page (acc.length + names.length)) := by
  have hlen : names.length ≠ 0 := by
    simpa using fun hz => h0 (List.length_eq_zero.mp hz)
  simp [fetchPagesGo, hlen, h100]

/-- An empty array stops the loop with nothing accumulated from it. -/
theorem fetchGo_emptyArr (org : String) (rest : List Attempt) (page fails : Nat)
    (acc : List String) :
    fetchPagesGo org (Attempt.ok (Body.arr []) :: rest) page fails acc =
      (acc, false, rest, [Eff.httpListPage org 100 page]) := by
  simp [fetchPagesGo]

/-- A non-list body stops the loop. -/
theorem fetchGo_notList (org : String) (rest : List Attempt) (page fails : Nat)
    (acc : List String) :
    fetchPagesGo org (Attempt.ok Body.notList :: rest) page fails acc =
      (acc, false, rest, [Eff.httpListPage org 100 page]) := by
  simp [fetchPagesGo]

/-- Three consecutive failures on one page leave the loop through the outer
except handler, keeping the accumulated prefix and the rest of the queue. -/
theorem fetchGo_err3 (org : String) (rest : List Attempt) (page : Nat)
    (acc : List String) :
    fetchPagesGo org (Attempt.err :: Attempt.err :: Attempt.err :: rest) page 0 acc =
      (acc, true, rest,
        Eff.httpListPage org 100 page :: retryWarnEffs ++
          (Eff.httpListPage org 100 page :: retryWarnEffs ++
            ([Eff.httpListPage org 100 page] ++ fetchErrEffs))) := by
  simp [fetchPagesGo]

/-- mkNames is non-empty for positive n. -/
theorem mkNames_ne_nil (stem : String) (n : Nat) (h : n ≠ 0) :
    mkNames stem n ≠ [] := by
  intro hnil
  have hl := mkNames_length stem n
  rw [hnil] at hl
  simp at hl
  omega

/-- A listing request is never one of the two effects of a log call. -/
theorem httpListPage_not_mem_logEff (level msg o : String) (pp pg : Nat) :
    Eff.httpListPage o pp pg ∉ logEff level msg := by
  simp [logEff]

/-- Every listing request recorded by failBurst uses page size 100. -/
theorem failBurst_perPage (org : String) (page : Nat) (n : Nat)
    (o : String) (pp pg : Nat)
    (h : Eff.httpListPage o pp pg ∈ failBurst org page n) : pp = 100 := by
  induction n with
  | zero => simp [failBurst] at h
  | succ r ih =>
    simp only [failBurst] at h
    rcases List.mem_cons.mp h with h | h
    · injection h with h1 h2 h3
    · by_cases hr : r = 0
      · rw [if_pos hr] at h; simp at h
      · rw [if_neg hr] at h
        rcases List.mem_append.mp h with h | h
        · exact absurd h (httpListPage_not_mem_logEff _ _ _ _ _)
        · exact ih h

/-- Every listing request issued by the fetch loop uses page size 100. -/
theorem fetchGo_perPage (org : String) (q : List Attempt) :
    ∀ (page fails : Nat) (acc : List String) (o : String) (pp pg : Nat),
      Eff.httpListPage o pp pg ∈ (fetchPagesGo org q page fails acc).2.2.2 →
        pp = 100 := by
  induction q with
  | nil =>
    intro page fails acc o pp pg h
    simp only [fetchPagesGo] at h
    rcases List.mem_append.mp h with h | h
    · exact failBurst_perPage org page (3 - fails) o pp pg h
    · exact absurd h (httpListPage_not_mem_logEff _ _ _ _ _)
  | cons a rest ih =>
    intro page fails acc o pp pg h
    cases a with
    | err =>
      by_cases hf : 2 ≤ fails
      · simp only [fetchPagesGo, if_pos hf] at h
        rcases List.mem_append.mp h with h | h
        · rcases List.mem_singleton.mp h with h
          injection h with h1 h2 h3
        · exact absurd h (httpListPage_not_mem_logEff _ _ _ _ _)
      · simp only [fetchPagesGo, if_neg hf] at h
        rcases List.mem_cons.mp h with h | h
        · injection h with h1 h2 h3
        · rcases List.mem_append.mp h with h | h
          · exact absurd h (httpListPage_not_mem_logEff _ _ _ _ _)
          · exact ih page (fails + 1) acc o pp pg h
    | ok b =>
      cases b with
      | notList =>
        simp only [fetchPagesGo] at h
        rcases List.mem_singleton.mp h with h
        injection h with h1 h2 h3
      | arr names =>
        by_cases h0 : names.length = 0
        · simp only [fetchPagesGo, if_pos h0] at h
          rcases List.mem_singleton.mp h with h
          injection h with h1 h2 h3
        · by_cases h100 : names.length < 100
          · simp only [fetchPagesGo, if_neg h0, if_pos h100] at h
            rcases List.mem_cons.mp h with h | h
            · injection h with h1 h2 h3
            · exact absurd h (httpListPage_not_mem_logEff _ _ _ _ _)
          · simp only [fetchPagesGo, if_neg h0, if_neg h100] at h
            rcases List.mem_cons.mp h with h | h
            · injection h with h1 h2 h3
            · rcases List.mem_append.mp h with h | h
              · exact absurd h (httpListPage_not_mem_logEff _ _ _ _ _)
              · exact ih (page + 1) 0 (acc ++ names) o pp pg h

/-- C6: Pagination requests pages of size 100 and continues exactly while
the returned page has 100 entries, stopping on a smaller page or an
empty/non-list body: the sequence [100, 100, 37] yields exactly 237 entries
and stops after the third page; the sequence [100, 0] yields exactly 100
entries. -/
theorem claim_C6_pagination (org : String) (q rest : List Attempt)
    (page fails : Nat) (acc names : List String) :
    (∀ (o : String) (pp pg : Nat),
      Eff.httpListPage o pp pg ∈ (fetchPagesGo org q page fails acc).2.2.2 →
        pp = 100) ∧
    (names.length = 100 →
      (fetchPagesGo org (Attempt.ok (Body.arr names) :: rest) page fails acc).1 =
        (fetchPagesGo org rest (page + 1) 0 (acc ++ names)).1 ∧
      (fetchPagesGo org (Attempt.ok (Body.arr names) :: rest) page fails acc).2.2.1 =
        (fetchPagesGo org rest (page + 1) 0 (acc ++ names)).2.2.1) ∧
    (names ≠ [] → names.length < 100 →
      fetchPagesGo org (Attempt.ok (Body.arr names) :: rest) page fails acc =
        (acc ++ names, false, rest,
          Eff.httpListPage org 100 page ::
            pageLogEffs names.length page (acc.length + names.length))) ∧
    (fetchPagesGo org (Attempt.ok (Body.arr []) :: rest) page fails acc =
        (acc, false, rest, [Eff.httpListPage org 100 page])) ∧
    (fetchPagesGo org (Attempt.ok Body.notList :: rest) page fails acc =
        (acc, false, rest, [Eff.httpListPage org 100 page])) ∧
    ((fetchPagesGo "acme"
        [Attempt.ok (Body.arr (mkNames "acme/a" 100)),
         Attempt.ok (Body.arr (mkNames "acme/b" 100)),
         Attempt.ok (Body.arr (mkNames "acme/c" 37)),
         Attempt.ok (Body.arr (mkNames "acme/d" 5))] 1 0 []).1.length = 237 ∧
     (fetchPagesGo "acme"
        [Attempt.ok (Body.arr (mkNames "acme/a" 100)),
         Attempt.ok (Body.arr (mkNames "acme/b" 100)),
         Attempt.ok (Body.arr (mkNames "acme/c" 37)),
         Attempt.ok (Body.arr (mkNames "acme/d" 5))] 1 0 []).2.2.1 =
        [Attempt.ok (Body.arr (mkNames "acme/d" 5))]) ∧
    ((fetchPagesGo "acme"
        [Attempt.ok (Body.arr (mkNames "acme/a" 100)),
         Attempt.ok (Body.arr []),
         Attempt.ok (Body.arr (mkNames "acme/d" 5))] 1 0 []).1.length = 100 ∧
     (fetchPagesGo "acme"
        [Attempt.ok (Body.arr (mkNames "acme/a" 100)),
         Attempt.ok (Body.arr []),
         Attempt.ok (Body.arr (mkNames "acme/d" 5))] 1 0 []).2.2.1 =
        [Attempt.ok (Body.arr (mkNames "acme/d" 5))]) := by
  have ea1 : (mkNames "acme/a" 100).length = 100 := mkNames_length _ _
  have eb1 : (mkNames "acme/b" 100).length = 100 := mkNames_length _ _
  have ec37 : (mkNames "acme/c" 37).length = 37 := mkNames_length _ _
  have e1 := fetchGo_full "acme"
    [Attempt.ok (Body.arr (mkNames "acme/b" 100)),
     Attempt.ok (Body.arr (mkNames "acme/c" 37)),
     Attempt.ok (Body.arr (mkNames "acme/d" 5))]
    1 0 [] (mkNames "acme/a" 100) ea1
  have e2 := fetchGo_full "acme"
    [Attempt.ok (Body.arr (mkNames "acme/c" 37)),
     Attempt.ok (Body.arr (mkNames "acme/d" 5))]
    2 0 ([] ++ mkNames "acme/a" 100) (mkNames "acme/b" 100) eb1
  have e3 := fetchGo_small "acme" [Attempt.ok (Body.arr (mkNames "acme/d" 5))] 3 0
    (([] ++ mkNames "acme/a" 100) ++ mkNames "acme/b" 100) (mkNames "acme/c" 37)
    (mkNames_ne_nil _ _ (by omega)) (by rw [ec37]; omega)
  have f1 := fetchGo_full "acme"
    [Attempt.ok (Body.arr []), Attempt.ok (Body.arr (mkNames "acme/d" 5))]
    1 0 [] (mkNames "acme/a" 100) ea1
  have f2 := fetchGo_emptyArr "acme" [Attempt.ok (Body.arr (mkNames "acme/d" 5))]
    2 0 ([] ++ mkNames "acme/a" 100)
  refine ⟨fetchGo_perPage org q page fails acc, ?_, ?_, fetchGo_emptyArr org rest page fails acc,
    fetchGo_notList org rest page fails acc, ⟨?_, ?_⟩, ⟨?_, ?_⟩⟩
  · intro h
    rw [fetchGo_full org rest page fails acc names h]
    exact ⟨rfl, rfl⟩
  · intro h0 h100
    exact fetchGo_small org rest page fails acc names h0 h100
  · rw [e1, e2, e3]
    simp [mkNames_length]
  · rw [e1, e2, e3]
  · rw [f1, f2]
    simp [mkNames_length]
  · rw [f1, f2]

/-- Witness for C6: the continuation rule applied to a concrete full page
followed by a short page. -/
theorem claim_C6_pagination_witness :
    (fetchPagesGo "acme"
        [Attempt.ok (Body.arr (mkNames "acme/x" 100)),
         Attempt.ok (Body.arr (mkNames "acme/y" 7))] 1 0 []).1 =
      (fetchPagesGo "acme" [Attempt.ok (Body.arr (mkNames "acme/y" 7))]
        2 0 ([] ++ mkNames "acme/x" 100)).1 :=
  ((claim_C6_pagination "acme" []
      [Attempt.ok (Body.arr (mkNames "acme/y" 7))] 1 0 []
      (mkNames "acme/x" 100)).2.1 (mkNames_length "acme/x" 100)).1

/-- C1 (amended): when some page exhausts its three retry attempts, the
raised exception is caught by the fetch loop's outer handler: fetching
stops, but the partial results accumulated from earlier pages are kept,
sorted, and written to the current-day snapshot file, and fetch returns
them (an empty snapshot file is still written when the first page fails).
The original all-or-nothing claim is refuted by the counterexample. -/
theorem claim_C1_partial_persisted (m : Monitor) (q rest : List Attempt)
    (names : List String) (h : m.organization ≠ "")
    (h100 : names.length = 100) :
    ((fetchPagesGo m.organization
        (Attempt.ok (Body.arr names) ::
          Attempt.err :: Attempt.err :: Attempt.err :: rest) 1 0 []).1 = names ∧
     (fetchPagesGo m.organization
        (Attempt.ok (Body.arr names) ::
          Attempt.err :: Attempt.err :: Attempt.err :: rest) 1 0 []).2.1 = true ∧
     (fetchPagesGo m.organization
        (Attempt.ok (Body.arr names) ::
          Attempt.err :: Attempt.err :: Attempt.err :: rest) 1 0 []).2.2.1 = rest) ∧
    (Eff.writeFile (repoListFile m) ((fetch_repositories m q).1)
        ∈ (fetch_repositories m q).2 ∧
     (fetch_repositories m q).1 =
        sortStrings (fetchPagesGo m.organization q 1 0 []).1) := by
  constructor
  · rw [fetchGo_full m.organization (Attempt.err :: Attempt.err :: Attempt.err :: rest)
        1 0 [] names h100,
      fetchGo_err3 m.organization rest 2 (([] : List String) ++ names)]
    simp
  · constructor
    · by_cases htok : m.github_token = "" <;>
        simp [fetch_repositories, h, htok]
    · by_cases htok : m.github_token = "" <;>
        simp [fetch_repositories, h, htok]

/-- Witness for C1: the amended behaviour at a concrete monitor and a
concrete queue whose second page fails three times. -/
theorem claim_C1_partial_persisted_witness :
    ((fetchPagesGo "acme"
        [Attempt.ok (Body.arr (mkNames "acme/r" 100)),
         Attempt.err, Attempt.err, Attempt.err] 1 0 []).1 = mkNames "acme/r" 100 ∧
     (fetchPagesGo "acme"
        [Attempt.ok (Body.arr (mkNames "acme/r" 100)),
         Attempt.err, Attempt.err, Attempt.err] 1 0 []).2.1 = true ∧
     (fetchPagesGo "acme"
        [Attempt.ok (Body.arr (mkNames "acme/r" 100)),
         Attempt.err, Attempt.err, Attempt.err] 1 0 []).2.2.1 = []) ∧
    (Eff.writeFile (repoListFile (Monitor.mk "acme" "" "" false "2025-01-01"))
        ((fetch_repositories (Monitor.mk "acme" "" "" false "2025-01-01")
          [Attempt.ok (Body.arr (mkNames "acme/r" 100)),
           Attempt.err, Attempt.err, Attempt.err]).1)
        ∈ (fetch_repositories (Monitor.mk "acme" "" "" false "2025-01-01")
          [Attempt.ok (Body.arr (mkNames "acme/r" 100)),
           Attempt.err, Attempt.err, Attempt.err]).2 ∧
     (fetch_repositories (Monitor.mk "acme" "" "" false "2025-01-01")
        [Attempt.ok (Body.arr (mkNames "acme/r" 100)),
         Attempt.err, Attempt.err, Attempt.err]).1 =
       sortStrings (fetchPagesGo "acme"
        [Attempt.ok (Body.arr (mkNames "acme/r" 100)),
         Attempt.err, Attempt.err, Attempt.err] 1 0 []).1) :=
  claim_C1_partial_persisted (Monitor.mk "acme" "" "" false "2025-01-01")
    [Attempt.ok (Body.arr (mkNames "acme/r" 100)),
     Attempt.err, Attempt.err, Attempt.err] [] (mkNames "acme/r" 100)
    (by decide) (mkNames_length "acme/r" 100)

/-- C1 counterexample: a fetch whose second page fails all three retry
attempts still writes the current-day snapshot file, containing the sorted
partial results of the first page, and returns that non-empty partial list
— refuting the all-or-nothing claim that partial results are discarded and
no snapshot file is written. -/
theorem claim_C1_counterexample :
    (fetchPagesGo "acme"
        [Attempt.ok (Body.arr (mkNames "acme/r" 100)),
         Attempt.err, Attempt.err, Attempt.err] 1 0 []).2.1 = true ∧
    (fetch_repositories (Monitor.mk "acme" "" "" false "2025-01-01")
        [Attempt.ok (Body.arr (mkNames "acme/r" 100)),
         Attempt.err, Attempt.err, Attempt.err]).1 =
      sortStrings (mkNames "acme/r" 100) ∧
    sortStrings (mkNames "acme/r" 100) ≠ [] ∧
    Eff.writeFile (repoListFile (Monitor.mk "acme" "" "" false "2025-01-01"))
        (sortStrings (mkNames "acme/r" 100))
      ∈ (fetch_repositories (Monitor.mk "acme" "" "" false "2025-01-01")
          [Attempt.ok (Body.arr (mkNames "acme/r" 100)),
           Attempt.err, Attempt.err, Attempt.err]).2 := by
  have h100 : (mkNames "acme/r" 100).length = 100 := mkNames_length _ _
  have hgo : (fetchPagesGo "acme"
      [Attempt.ok (Body.arr (mkNames "acme/r" 100)),
       Attempt.err, Attempt.err, Attempt.err] 1 0 []).1 = mkNames "acme/r" 100 ∧
      (fetchPagesGo "acme"
      [Attempt.ok (Body.arr (mkNames "acme/r" 100)),
       Attempt.err, Attempt.err, Attempt.err] 1 0 []).2.1 = true := by
    rw [fetchGo_full "acme" [Attempt.err, Attempt.err, Attempt.err] 1 0 []
        (mkNames "acme/r" 100) h100,
      fetchGo_err3 "acme" [] 2 (([] : List String) ++ mkNames "acme/r" 100)]
    simp
  have hnil : sortStrings (mkNames "acme/r" 100) ≠ [] := by
    intro hs
    exact mkNames_ne_nil "acme/r" 100 (by omega) ((sortStrings_eq_nil_iff _).mp hs)
  refine ⟨hgo.2, ?_, hnil, ?_⟩
  · simp [fetch_repositories, hgo.1]
  · simp [fetch_repositories, hgo.1]

/-! ## run() and main() claims -/

/-- The snapshot file never collides with the added-repositories file. -/
theorem repoListFile_ne_addedReposFile (m : Monitor) :
    repoListFile m ≠ addedReposFile m := by
  intro h
  have hl := congrArg String.length h
  rw [repoListFile, addedReposFile, String.length_append, String.length_append] at hl
  have h10 : ("repo-list-" : String).length = 10 := by decide
  have h12 : ("added-repos-" : String).length = 12 := by decide
  omega

/-- The snapshot file never collides with the deleted-repositories file. -/
theorem repoListFile_ne_deletedReposFile (m : Monitor) :
    repoListFile m ≠ deletedReposFile m := by
  intro h
  have hl := congrArg String.length h
  rw [repoListFile, deletedReposFile, String.length_append, String.length_append] at hl
  have h10 : ("repo-list-" : String).length = 10 := by decide
  have h14 : ("deleted-repos-" : String).length = 14 := by decide
  omega

/-- Predicates that ignore listing requests, console prints and log appends
are false on every effect of a failBurst trace. -/
theorem failBurst_any_false (org : String) (page : Nat) (p : Eff → Bool)
    (hhttp : ∀ o pp pg, p (Eff.httpListPage o pp pg) = false)
    (hcons : ∀ s, p (Eff.consolePrint s) = false)
    (hlog : ∀ s, p (Eff.appendLog s) = false) :
    ∀ n, (failBurst org page n).any p = false := by
  intro n
  induction n with
  | zero => simp [failBurst]
  | succ r ih =>
    by_cases hr : r = 0
    · simp [failBurst, hr, hhttp]
    · simp [failBurst, hr, retryWarnEffs, logEff, hhttp, hcons, hlog, ih]

/-- Predicates that ignore listing requests, console prints and log appends
are false on every effect of the fetch loop's trace. -/
theorem fetchGo_any_false (org : String) (q : List Attempt) (p : Eff → Bool)
    (hhttp : ∀ o pp pg, p (Eff.httpListPage o pp pg) = false)
    (hcons : ∀ s, p (Eff.consolePrint s) = false)
    (hlog : ∀ s, p (Eff.appendLog s) = false) :
    ∀ (page fails : Nat) (acc : List String),
      ((fetchPagesGo org q page fails acc).2.2.2).any p = false := by
  induction q with
  | nil =>
    intro page fails acc
    simp [fetchPagesGo, fetchErrEffs, logEff, hcons, hlog,
      failBurst_any_false org page p hhttp hcons hlog (3 - fails)]
  | cons a rest ih =>
    intro page fails acc
    cases a with
    | err =>
      by_cases hf : 2 ≤ fails
      · simp [fetchPagesGo, hf, fetchErrEffs, logEff, hhttp, hcons, hlog]
      · simp [fetchPagesGo, hf, retryWarnEffs, logEff, hhttp, hcons, hlog,
          ih page (fails + 1) acc]
    | ok b =>
      cases b with
      | notList => simp [fetchPagesGo, hhttp]
      | arr names =>
        by_cases h0 : names.length = 0
        · simp [fetchPagesGo, h0, hhttp]
        · by_cases h100 : names.length < 100
          · simp [fetchPagesGo, h0, h100, pageLogEffs, logEff, hhttp, hcons, hlog]
          · simp [fetchPagesGo, h0, h100, pageLogEffs, logEff, hhttp, hcons, hlog,
              ih (page + 1) 0 (acc ++ names)]

/-- validate_token succeeds exactly when a non-empty token gets a 200. -/
theorem validate_token_eq_of_valid (m : Monitor) (net : Network)
    (h1 : m.github_token ≠ "") (h2 : net.tokenValid = true) :
    validate_token m net =
      (true, Eff.httpGetUser ::
        logEff "INFO" "GitHub token validated successfully") := by
  simp [validate_token, h1, h2]

/-- validate_organization succeeds exactly when a non-empty organization
gets a 200. -/
theorem validate_organization_eq_of_valid (m : Monitor) (net : Network)
    (h1 : m.organization ≠ "") (h2 : net.orgValid = true) :
    validate_organization m net =
      (true, Eff.httpGetOrg m.organization ::
        logEff "INFO" ("Organization " ++ m.organization ++
          " validated successfully")) := by
  simp [validate_organization, h1, h2]

/-- Predicates ignoring log, console, copy and remove effects are false on
a backupOne trace. -/
theorem backupOne_any_false (m : Monitor) (existing : List String)
    (file : String) (p : Eff → Bool)
    (hcons : ∀ s, p (Eff.consolePrint s) = false)
    (hlog : ∀ s, p (Eff.appendLog s) = false)
    (hcopy : ∀ a b, p (Eff.copyFile a b) = false)
    (hrm : ∀ a, p (Eff.removeFile a) = false) :
    (backupOne m existing file).any p = false := by
  by_cases h : existing.contains file
  · simp only [backupOne, if_pos h, logEff, List.cons_append, List.nil_append,
      List.any_cons, List.any_nil, hcons, hlog, hcopy, hrm, Bool.or_false,
      Bool.false_or]
  · rw [backupOne, if_neg h]
    rfl

/-- Predicates additionally ignoring the backup-directory creation are
false on the whole backup_files trace. -/
theorem backup_files_any_false (m : Monitor) (existing : List String)
    (p : Eff → Bool)
    (hcons : ∀ s, p (Eff.consolePrint s) = false)
    (hlog : ∀ s, p (Eff.appendLog s) = false)
    (hcopy : ∀ a b, p (Eff.copyFile a b) = false)
    (hrm : ∀ a, p (Eff.removeFile a) = false)
    (hmk : p Eff.mkdirBackupDir = false) :
    (backup_files m existing).any p = false := by
  simp [backup_files, logEff, hcons, hlog, hmk,
    backupOne_any_false m existing (repoListFile m) p hcons hlog hcopy hrm,
    backupOne_any_false m existing (addedReposFile m) p hcons hlog hcopy hrm,
    backupOne_any_false m existing (deletedReposFile m) p hcons hlog hcopy hrm]

/-- Predicates ignoring listing requests, logs, console prints and the
snapshot-file write are false on the whole fetch trace. -/
theorem fetch_repositories_any_false (m : Monitor) (q : List Attempt)
    (p : Eff → Bool)
    (hhttp : ∀ o pp pg, p (Eff.httpListPage o pp pg) = false)
    (hcons : ∀ s, p (Eff.consolePrint s) = false)
    (hlog : ∀ s, p (Eff.appendLog s) = false)
    (hwrite : ∀ l, p (Eff.writeFile (repoListFile m) l) = false) :
    ((fetch_repositories m q).2).any p = false := by
  by_cases horg : m.organization = "" <;>
    by_cases htok : m.github_token = "" <;>
      simp [fetch_repositories, horg, htok, logEff, hcons, hlog, hwrite,
        fetchGo_any_false m.organization q p hhttp hcons hlog 1 0]

/-- A console-only predicate is false on a print_header trace. -/
theorem print_header_any_false (title : String) (p : Eff → Bool)
    (hcons : ∀ s, p (Eff.consolePrint s) = false) :
    (print_header title).any p = false := by
  simp [print_header, hcons]

/-- Projection of the constructed monitor: organization. -/
theorem monitorOf_organization (c : Config) (today : String) :
    (monitorOf c today).organization = c.organization := rfl

/-- Projection of the constructed monitor: token. -/
theorem monitorOf_github_token (c : Config) (today : String) :
    (monitorOf c today).github_token = c.github_token := rfl

/-- Projection of the constructed monitor: notification flag. -/
theorem monitorOf_enable_slack (c : Config) (today : String) :
    (monitorOf c today).enable_slack = c.enable_slack := rfl

/-- C8: A failure of the webhook notification step is logged and swallowed:
whenever the validations pass and the fetch returns a non-empty list, run()
returns True and the process exits with code 0, for every webhook outcome
(the slackOk field of the network is unconstrained). -/
theorem claim_C8_notification_swallowed (c : Config) (today : String)
    (net : Network) (existing : List String)
    (previous : Option (String × List Char))
    (horg : c.organization ≠ "")
    (htok : c.github_token = "" ∨ net.tokenValid = true)
    (hv : net.orgValid = true)
    (hf : (fetch_repositories (monitorOf c today) net.pages).1 ≠ []) :
    (GitHubMonitor.run (monitorOf c today) net existing previous).1 = true ∧
    (monitorMain (Args.mk none none none false false false) (some c) today
        net existing previous).1 = 0 := by
  have horg2 : (monitorOf c today).organization ≠ "" := horg
  have hrun : (GitHubMonitor.run (monitorOf c today) net existing previous).1
      = true := by
    by_cases h2 : c.github_token = ""
    · cases previous <;>
        simp [GitHubMonitor.run, monitorOf_organization, monitorOf_github_token,
          horg, h2,
          validate_organization_eq_of_valid (monitorOf c today) net horg2 hv,
          hf]
    · have h3 : net.tokenValid = true := htok.resolve_left h2
      have h2m : (monitorOf c today).github_token ≠ "" := h2
      cases previous <;>
        simp [GitHubMonitor.run, monitorOf_organization, monitorOf_github_token,
          horg, h2,
          validate_token_eq_of_valid (monitorOf c today) net h2m h3,
          validate_organization_eq_of_valid (monitorOf c today) net horg2 hv,
          hf]
  refine ⟨hrun, ?_⟩
  simp [monitorMain, updateRequested, optTruthy, monitorOf_organization, horg, hrun]

/-- Witness for C8: a concrete run whose webhook POST fails (slackOk false)
still returns True and exits 0. -/
theorem claim_C8_notification_swallowed_witness :
    (GitHubMonitor.run
        (monitorOf (Config.mk "acme" "" "https://hooks.example/x" true) "2025-01-02")
        (Network.mk false true [Attempt.ok (Body.arr ["acme/a"])] false) []
        (some ("repo-list-2025-01-01", ['a', '\n']))).1 = true ∧
    (monitorMain (Args.mk none none none false false false)
        (some (Config.mk "acme" "" "https://hooks.example/x" true)) "2025-01-02"
        (Network.mk false true [Attempt.ok (Body.arr ["acme/a"])] false) []
        (some ("repo-list-2025-01-01", ['a', '\n']))).1 = 0 :=
  claim_C8_notification_swallowed _ _ _ _ _ (by decide) (Or.inl rfl) rfl (by decide)

/-- C10: If the fetch step returns an empty repository list, run() reports
overall failure (returns False; the process exit code is 1) even though no
fetch error occurred, and the diff and reporting steps are skipped: the run
trace writes no added- or deleted-repositories file and posts no webhook
notification. -/
theorem claim_C10_empty_fetch (c : Config) (today : String) (net : Network)
    (existing : List String) (previous : Option (String × List Char))
    (horg : c.organization ≠ "")
    (htok : c.github_token = "" ∨ net.tokenValid = true)
    (hv : net.orgValid = true)
    (hempty : (fetch_repositories (monitorOf c today) net.pages).1 = []) :
    (GitHubMonitor.run (monitorOf c today) net existing previous).1 = false ∧
    (monitorMain (Args.mk none none none false false false) (some c) today
        net existing previous).1 = 1 ∧
    ((GitHubMonitor.run (monitorOf c today) net existing previous).2.any
        (isDiffWrite (monitorOf c today)) = false) ∧
    ((GitHubMonitor.run (monitorOf c today) net existing previous).2.any
        isSlackPost = false) := by
  have horg2 : (monitorOf c today).organization ≠ "" := horg
  have hwD : ∀ l, isDiffWrite (monitorOf c today)
      (Eff.writeFile (repoListFile (monitorOf c today)) l) = false := by
    intro l
    simp [isDiffWrite, repoListFile_ne_addedReposFile (monitorOf c today),
      repoListFile_ne_deletedReposFile (monitorOf c today)]
  have hbD := backup_files_any_false (monitorOf c today) existing
    (isDiffWrite (monitorOf c today)) (fun _ => rfl) (fun _ => rfl)
    (fun _ _ => rfl) (fun _ => rfl) rfl
  have hfD := fetch_repositories_any_false (monitorOf c today) net.pages
    (isDiffWrite (monitorOf c today)) (fun _ _ _ => rfl) (fun _ => rfl)
    (fun _ => rfl) hwD
  have hbS := backup_files_any_false (monitorOf c today) existing
    isSlackPost (fun _ => rfl) (fun _ => rfl) (fun _ _ => rfl) (fun _ => rfl) rfl
  have hfS := fetch_repositories_any_false (monitorOf c today) net.pages
    isSlackPost (fun _ _ _ => rfl) (fun _ => rfl) (fun _ => rfl) (fun _ => rfl)
  have hrun : (GitHubMonitor.run (monitorOf c today) net existing previous).1
      = false ∧
      ((GitHubMonitor.run (monitorOf c today) net existing previous).2.any
        (isDiffWrite (monitorOf c today)) = false) ∧
      ((GitHubMonitor.run (monitorOf c today) net existing previous).2.any
        isSlackPost = false) := by
    by_cases h2 : c.github_token = ""
    · simp [GitHubMonitor.run, monitorOf_organization, monitorOf_github_token,
        horg, h2,
        validate_organization_eq_of_valid (monitorOf c today) net horg2 hv,
        hempty, List.any_append, logEff, print_header, isDiffWrite, isSlackPost,
        hbD, hbS, hfD, hfS]
    · have h3 : net.tokenValid = true := htok.resolve_left h2
      have h2m : (monitorOf c today).github_token ≠ "" := h2
      simp [GitHubMonitor.run, monitorOf_organization, monitorOf_github_token,
        horg, h2,
        validate_token_eq_of_valid (monitorOf c today) net h2m h3,
        validate_organization_eq_of_valid (monitorOf c today) net horg2 hv,
        hempty, List.any_append, logEff, print_header, isDiffWrite, isSlackPost,
        hbD, hbS, hfD, hfS]
  refine ⟨hrun.1, ?_, hrun.2.1, hrun.2.2⟩
  simp [monitorMain, updateRequested, optTruthy, monitorOf_organization, horg,
    hrun.1]

/-- Witness for C10: a fetch whose single page is an empty array yields an
empty list; the run fails with exit code 1 and skips diff and reporting. -/
theorem claim_C10_empty_fetch_witness :
    (GitHubMonitor.run (monitorOf (Config.mk "acme" "" "" false) "2025-01-03")
        (Network.mk false true [Attempt.ok (Body.arr [])] false) [] none).1
      = false ∧
    (monitorMain (Args.mk none none none false false false)
        (some (Config.mk "acme" "" "" false)) "2025-01-03"
        (Network.mk false true [Attempt.ok (Body.arr [])] false) [] none).1 = 1 ∧
    ((GitHubMonitor.run (monitorOf (Config.mk "acme" "" "" false) "2025-01-03")
        (Network.mk false true [Attempt.ok (Body.arr [])] false) [] none).2.any
        (isDiffWrite (monitorOf (Config.mk "acme" "" "" false) "2025-01-03"))
      = false) ∧
    ((GitHubMonitor.run (monitorOf (Config.mk "acme" "" "" false) "2025-01-03")
        (Network.mk false true [Attempt.ok (Body.arr [])] false) [] none).2.any
        isSlackPost = false) :=
  claim_C10_empty_fetch _ _ _ _ _ (by decide) (Or.inl rfl) rfl (by decide)

/-- C2 counterexample: a pure dry-run invocation (only the dry-run flag,
existing configuration, organization set) exits 0 but its trace does modify
a file on disk — the initialization line is appended to the log file — so
the claim that no log file is created or modified is false. -/
theorem claim_C2_dry_run_counterexample :
    ((monitorMain (Args.mk none none none false false true)
        (some (Config.mk "acme" "" "" false)) "2025-01-01"
        (Network.mk false false [] false) [] none).2.any isFileWrite = true) ∧
    ((monitorMain (Args.mk none none none false false true)
        (some (Config.mk "acme" "" "" false)) "2025-01-01"
        (Network.mk false false [] false) [] none).1 = 0) := by
  decide

/-- C2 (amended): a dry-run invocation with no update flags performs no
HTTP request at all (in particular no repository fetching) and writes no
snapshot, diff or backup files; but the log file is appended during
initialization (the only file modification when a configuration file
already exists), and when no configuration file exists a fresh default one
is written.  With the organization set the dry run exits 0; without any
stored configuration the missing-organization path exits 1. -/
theorem claim_C2_dry_run_amended (args : Args) (c : Config) (today : String)
    (net : Network) (existing : List String)
    (previous : Option (String × List Char))
    (hdry : args.dry_run = true) (hshow : args.show_config = false)
    (hupd : updateRequested args = false) (horg : c.organization ≠ "") :
    ((monitorMain args (some c) today net existing previous).2.filter isFileWrite
      = [Eff.appendLog "[INFO] GitHub Repository Monitor initialized"]) ∧
    ((monitorMain args (some c) today net existing previous).2.any isHttp
      = false) ∧
    ((monitorMain args (some c) today net existing previous).1 = 0) ∧
    ((monitorMain args none today net existing previous).2.filter isFileWrite
      = [Eff.writeConfigFile defaultConfig,
         Eff.appendLog "[INFO] GitHub Repository Monitor initialized"]) ∧
    ((monitorMain args none today net existing previous).1 = 1) := by
  refine ⟨?_, ?_, ?_, ?_, ?_⟩ <;>
    simp [monitorMain, hdry, hshow, hupd, monitorOf_organization, horg,
      initEffects, showConfigEffs, show_config_rows, logEff, defaultConfig,
      List.filter_append, List.filter_map, Function.comp, isFileWrite, isHttp]

/-- Witness for C2 amended: a concrete pure dry-run invocation. -/
theorem claim_C2_dry_run_amended_witness :
    ((monitorMain (Args.mk none none none false false true)
        (some (Config.mk "acme" "tok" "https://hooks.example/x" true)) "2025-01-01"
        (Network.mk true true [] true) ["repo-list-2025-01-01"] none).2.filter
        isFileWrite
      = [Eff.appendLog "[INFO] GitHub Repository Monitor initialized"]) ∧
    ((monitorMain (Args.mk none none none false false true)
        (some (Config.mk "acme" "tok" "https://hooks.example/x" true)) "2025-01-01"
        (Network.mk true true [] true) ["repo-list-2025-01-01"] none).2.any isHttp
      = false) ∧
    ((monitorMain (Args.mk none none none false false true)
        (some (Config.mk "acme" "tok" "https://hooks.example/x" true)) "2025-01-01"
        (Network.mk true true [] true) ["repo-list-2025-01-01"] none).1 = 0) ∧
    ((monitorMain (Args.mk none none none false false true) none "2025-01-01"
        (Network.mk true true [] true) ["repo-list-2025-01-01"] none).2.filter
        isFileWrite
      = [Eff.writeConfigFile defaultConfig,
         Eff.appendLog "[INFO] GitHub Repository Monitor initialized"]) ∧
    ((monitorMain (Args.mk none none none false false true) none "2025-01-01"
        (Network.mk true true [] true) ["repo-list-2025-01-01"] none).1 = 1) :=
  claim_C2_dry_run_amended (Args.mk none none none false false true)
    (Config.mk "acme" "tok" "https://hooks.example/x" true) "2025-01-01"
    (Network.mk true true [] true) ["repo-list-2025-01-01"] none
    rfl rfl rfl (by decide)

/-- The end-to-end scenario of the design notes: previous snapshot
a, b, c against current a, c, d gives added d and deleted b. -/
theorem end_to_end_scenario :
    compare_repositories ["acme/a", "acme/c", "acme/d"] ["acme/a", "acme/b", "acme/c"]
      = (["acme/d"], ["acme/b"]) := by
  decide
